import Mathlib

/-!
Shallow embedding of the deterministic core of `aztro_core` (file `src/lib.rs`):
angle resolvers, the nakshatra lord table, the Vimshottari dasha scheduler,
the dignity classifier, the yoga pattern detector and the kuta compatibility
scorer.  Floating-point values are modelled as exact rationals (each `f64`
literal is embedded as the rational its decimal digits denote), instants as
rationals counting seconds, and the `as i64` cast as truncation toward zero.
-/

/-- Truncation toward zero, the semantics of Rust's `as i64` cast on a
nonnegative-or-negative finite float. -/
def ratTrunc (q : ℚ) : ℤ := if 0 ≤ q then ⌊q⌋ else ⌈q⌉

/-- Rust `f64::rem_euclid(x, y)` for positive `y`: the representative of
`x` modulo `y` lying in `[0, y)`. -/
def remEuclid (x y : ℚ) : ℚ := x - y * ⌊x / y⌋

/-- Rust's `%` operator on `f64`: remainder of truncating division. -/
def rustRem (x y : ℚ) : ℚ := x - y * ratTrunc (x / y)

/-- The nine celestial bodies of `lib.rs` (enum `CelestialBody`). -/
inductive CelestialBody
  | Sun
  | Moon
  | Mercury
  | Venus
  | Mars
  | Jupiter
  | Saturn
  | Rahu
  | Ketu
  deriving DecidableEq, BEq, Fintype

/-- The twelve zodiac signs (enum `ZodiacSign`, discriminants 0..11). -/
inductive ZodiacSign
  | Aries
  | Taurus
  | Gemini
  | Cancer
  | Leo
  | Virgo
  | Libra
  | Scorpio
  | Sagittarius
  | Capricorn
  | Aquarius
  | Pisces
  deriving DecidableEq, BEq, Fintype

/-- Discriminant of `ZodiacSign` (used where the Rust code casts `as i32`). -/
def ZodiacSign.toInt : ZodiacSign → ℤ
  | .Aries => 0
  | .Taurus => 1
  | .Gemini => 2
  | .Cancer => 3
  | .Leo => 4
  | .Virgo => 5
  | .Libra => 6
  | .Scorpio => 7
  | .Sagittarius => 8
  | .Capricorn => 9
  | .Aquarius => 10
  | .Pisces => 11

/-- `ZodiacSign::from_longitude` (lib.rs:126-145): normalize with
`rem_euclid(360)`, take `floor(x/30)` and map indices 0..11 to the signs,
any other index falling back to Aries. -/
def ZodiacSign.from_longitude (longitude : ℚ) : ZodiacSign :=
  let normalized_longitude := remEuclid longitude 360
  let sign_index := (⌊normalized_longitude / 30⌋).toNat
  match sign_index with
  | 0 => ZodiacSign.Aries
  | 1 => ZodiacSign.Taurus
  | 2 => ZodiacSign.Gemini
  | 3 => ZodiacSign.Cancer
  | 4 => ZodiacSign.Leo
  | 5 => ZodiacSign.Virgo
  | 6 => ZodiacSign.Libra
  | 7 => ZodiacSign.Scorpio
  | 8 => ZodiacSign.Sagittarius
  | 9 => ZodiacSign.Capricorn
  | 10 => ZodiacSign.Aquarius
  | 11 => ZodiacSign.Pisces
  | _ => ZodiacSign.Aries

/-- The 27 lunar constellations (enum `Nakshatra`, discriminants 0..26). -/
inductive Nakshatra
  | Ashwini
  | Bharani
  | Krittika
  | Rohini
  | Mrigashira
  | Ardra
  | Punarvasu
  | Pushya
  | Ashlesha
  | Magha
  | PurvaPhalguni
  | UttaraPhalguni
  | Hasta
  | Chitra
  | Swati
  | Vishakha
  | Anuradha
  | Jyeshtha
  | Moola
  | PurvaAshadha
  | UttaraAshadha
  | Shravana
  | Dhanishta
  | Shatabhisha
  | PurvaBhadrapada
  | UttaraBhadrapada
  | Revati
  deriving DecidableEq, BEq, Fintype

/-- Discriminant of `Nakshatra` (the value of `nakshatra as usize`). -/
def Nakshatra.toIndex : Nakshatra → ℕ
  | .Ashwini => 0
  | .Bharani => 1
  | .Krittika => 2
  | .Rohini => 3
  | .Mrigashira => 4
  | .Ardra => 5
  | .Punarvasu => 6
  | .Pushya => 7
  | .Ashlesha => 8
  | .Magha => 9
  | .PurvaPhalguni => 10
  | .UttaraPhalguni => 11
  | .Hasta => 12
  | .Chitra => 13
  | .Swati => 14
  | .Vishakha => 15
  | .Anuradha => 16
  | .Jyeshtha => 17
  | .Moola => 18
  | .PurvaAshadha => 19
  | .UttaraAshadha => 20
  | .Shravana => 21
  | .Dhanishta => 22
  | .Shatabhisha => 23
  | .PurvaBhadrapada => 24
  | .UttaraBhadrapada => 25
  | .Revati => 26

/-- The constellation span constant written `13.333333333333334` throughout
lib.rs (lines 201, 411-412, 1052-1053), embedded as the exact rational the
decimal literal denotes (slightly above `360/27`). -/
def nakshatra_span : ℚ := 13333333333333334 / 1000000000000000

/-- `Nakshatra::from_longitude` (lib.rs:199-232): normalize, divide by the
span, floor, and map indices 0..26, any other index falling back to
Ashwini. -/
def Nakshatra.from_longitude (longitude : ℚ) : Nakshatra :=
  let normalized_longitude := remEuclid longitude 360
  let nakshatra_index := (⌊normalized_longitude / nakshatra_span⌋).toNat
  match nakshatra_index with
  | 0 => Nakshatra.Ashwini
  | 1 => Nakshatra.Bharani
  | 2 => Nakshatra.Krittika
  | 3 => Nakshatra.Rohini
  | 4 => Nakshatra.Mrigashira
  | 5 => Nakshatra.Ardra
  | 6 => Nakshatra.Punarvasu
  | 7 => Nakshatra.Pushya
  | 8 => Nakshatra.Ashlesha
  | 9 => Nakshatra.Magha
  | 10 => Nakshatra.PurvaPhalguni
  | 11 => Nakshatra.UttaraPhalguni
  | 12 => Nakshatra.Hasta
  | 13 => Nakshatra.Chitra
  | 14 => Nakshatra.Swati
  | 15 => Nakshatra.Vishakha
  | 16 => Nakshatra.Anuradha
  | 17 => Nakshatra.Jyeshtha
  | 18 => Nakshatra.Moola
  | 19 => Nakshatra.PurvaAshadha
  | 20 => Nakshatra.UttaraAshadha
  | 21 => Nakshatra.Shravana
  | 22 => Nakshatra.Dhanishta
  | 23 => Nakshatra.Shatabhisha
  | 24 => Nakshatra.PurvaBhadrapada
  | 25 => Nakshatra.UttaraBhadrapada
  | 26 => Nakshatra.Revati
  | _ => Nakshatra.Ashwini

/-- `NakshatraInfo::get_nakshatra_lord` (lib.rs:422-452): the explicit 27-arm
lord table of the main library file, copied arm by arm. -/
def get_nakshatra_lord : Nakshatra → CelestialBody
  | .Ashwini => CelestialBody.Ketu
  | .Bharani => CelestialBody.Venus
  | .Krittika => CelestialBody.Sun
  | .Rohini => CelestialBody.Moon
  | .Mrigashira => CelestialBody.Mars
  | .Ardra => CelestialBody.Saturn
  | .Punarvasu => CelestialBody.Mercury
  | .Pushya => CelestialBody.Venus
  | .Ashlesha => CelestialBody.Sun
  | .Magha => CelestialBody.Moon
  | .PurvaPhalguni => CelestialBody.Mars
  | .UttaraPhalguni => CelestialBody.Rahu
  | .Hasta => CelestialBody.Jupiter
  | .Chitra => CelestialBody.Saturn
  | .Swati => CelestialBody.Mercury
  | .Vishakha => CelestialBody.Venus
  | .Anuradha => CelestialBody.Sun
  | .Jyeshtha => CelestialBody.Moon
  | .Moola => CelestialBody.Mars
  | .PurvaAshadha => CelestialBody.Rahu
  | .UttaraAshadha => CelestialBody.Jupiter
  | .Shravana => CelestialBody.Saturn
  | .Dhanishta => CelestialBody.Mercury
  | .Shatabhisha => CelestialBody.Venus
  | .PurvaBhadrapada => CelestialBody.Rahu
  | .UttaraBhadrapada => CelestialBody.Jupiter
  | .Revati => CelestialBody.Saturn

/-- The cyclic 9-body lord sequence used by `get_nakshatra_lord` in
swisseph.rs:176-190 of the same repository:
`lords[(nakshatra as usize) % 9]`. -/
def vimshottari_lord_cycle : List CelestialBody :=
  [CelestialBody.Ketu, CelestialBody.Venus, CelestialBody.Sun,
   CelestialBody.Moon, CelestialBody.Mars, CelestialBody.Rahu,
   CelestialBody.Jupiter, CelestialBody.Saturn, CelestialBody.Mercury]

/-- `get_nakshatra_lord` as implemented by swisseph.rs:176-190: lookup in the
fixed cyclic sequence at index `(nakshatra as usize) % 9`. -/
def swisseph_nakshatra_lord (nakshatra : Nakshatra) : CelestialBody :=
  vimshottari_lord_cycle.getD (nakshatra.toIndex % 9) CelestialBody.Ketu

/-- `NakshatraInfo` (lib.rs:399-405). -/
structure NakshatraInfo where
  nakshatra : Nakshatra
  pada : ℕ
  lord : CelestialBody
  degree : ℚ
  deriving DecidableEq

/-- `NakshatraInfo::from_longitude` (lib.rs:408-420): the pada is
`floor((normalized % span) / (span/4)) as u8 + 1` (the floor is nonnegative
here, so the saturating `as u8` cast is `Int.toNat`). -/
def NakshatraInfo.from_longitude (longitude : ℚ) : NakshatraInfo :=
  let normalized_longitude := remEuclid longitude 360
  let nakshatra := Nakshatra.from_longitude normalized_longitude
  let pada_length := nakshatra_span / 4
  let pada := (⌊rustRem normalized_longitude nakshatra_span / pada_length⌋).toNat + 1
  { nakshatra := nakshatra
    pada := pada
    lord := get_nakshatra_lord nakshatra
    degree := normalized_longitude }

/-- The nine dasha lords (enum `Dasha`, lib.rs:235-246). -/
inductive Dasha
  | Ketu
  | Venus
  | Sun
  | Moon
  | Mars
  | Rahu
  | Jupiter
  | Saturn
  | Mercury
  deriving DecidableEq, BEq, Fintype

/-- The `starting_dasha` match of `calculate_dasha` (lib.rs:1016-1026). -/
def dashaOfBody : CelestialBody → Dasha
  | CelestialBody.Sun => Dasha.Sun
  | CelestialBody.Moon => Dasha.Moon
  | CelestialBody.Mars => Dasha.Mars
  | CelestialBody.Mercury => Dasha.Mercury
  | CelestialBody.Jupiter => Dasha.Jupiter
  | CelestialBody.Venus => Dasha.Venus
  | CelestialBody.Saturn => Dasha.Saturn
  | CelestialBody.Rahu => Dasha.Rahu
  | CelestialBody.Ketu => Dasha.Ketu

/-- The fixed cyclic lord order `dasha_sequence` (lib.rs:1028-1038). -/
def dasha_sequence : List Dasha :=
  [Dasha.Ketu, Dasha.Venus, Dasha.Sun, Dasha.Moon, Dasha.Mars,
   Dasha.Rahu, Dasha.Jupiter, Dasha.Saturn, Dasha.Mercury]

/-- The fixed year-allocation table `dasha_years` (lib.rs:1040-1050). -/
def dasha_years : List (Dasha × ℚ) :=
  [(Dasha.Ketu, 7), (Dasha.Venus, 20), (Dasha.Sun, 6), (Dasha.Moon, 10),
   (Dasha.Mars, 7), (Dasha.Rahu, 18), (Dasha.Jupiter, 16),
   (Dasha.Saturn, 19), (Dasha.Mercury, 17)]

/-- The `dasha_years.iter().find(..).map(..).unwrap_or(0.0)` lookup used at
lib.rs:1055-1059, 1086-1090, 1116-1120 and 1146-1150. -/
def lookupYears (dasha : Dasha) : ℚ :=
  ((dasha_years.find? (fun pr => pr.1 == dasha)).map Prod.snd).getD 0

/-- Seconds of a year span: `(years * 365.25 * 86400.0) as i64`
(lib.rs:1077-1078 and 1092-1093), with the cast truncating toward zero. -/
def secondsOfYears (years : ℚ) : ℤ := ratTrunc (years * 365.25 * 86400)

/-- One Vimshottari period: lord, start instant, end instant (instants are
rationals counting seconds; `chrono` arithmetic only ever adds whole
seconds here). -/
abbrev DashaPeriod := Dasha × ℚ × ℚ

/-- The `while total_years < 120.0` loop of `calculate_dasha`
(lib.rs:1084-1099), written with explicit fuel: each iteration reads the
current lord from `dasha_sequence`, appends a full period and advances the
index cyclically.  Fuel 20 is always enough, because every allocation in
`dasha_years` is at least 6 years (see `genMaha_sum`). -/
def genMaha : ℕ → ℚ → ℕ → ℚ → List DashaPeriod
  | 0, _, _, _ => []
  | fuel + 1, total_years, index, start =>
    if total_years < 120 then
      let current_dasha := dasha_sequence.getD index Dasha.Ketu
      let years := lookupYears current_dasha
      let maha_dasha_end := start + (secondsOfYears years : ℚ)
      (current_dasha, start, maha_dasha_end) ::
        genMaha fuel (total_years + years) ((index + 1) % 9) maha_dasha_end
    else []

/-- The starting lord of the outer sequence (lib.rs:1015-1026): the dasha of
the ruling body of the Moon's constellation. -/
def starting_dasha_of (moon_longitude : ℚ) : Dasha :=
  dashaOfBody (NakshatraInfo.from_longitude moon_longitude).lord

/-- `nakshatra_fraction` (lib.rs:1052-1053): `moon_longitude` is reduced with
the truncating `%` operator, not `rem_euclid`. -/
def nakshatra_fraction_of (moon_longitude : ℚ) : ℚ :=
  rustRem moon_longitude nakshatra_span / nakshatra_span

/-- `dasha_balance_years` (lib.rs:1055-1061): the balance of the starting
lord's allocation remaining at birth. -/
def dasha_balance_years_of (moon_longitude : ℚ) : ℚ :=
  lookupYears (starting_dasha_of moon_longitude) *
    (1 - nakshatra_fraction_of moon_longitude)

/-- The starting index in `dasha_sequence` (lib.rs:1064-1067):
`position(..).unwrap_or(0)`. -/
def mahaStartIndex (moon_longitude : ℚ) : ℕ :=
  ((dasha_sequence.findIdx? (fun d => d == starting_dasha_of moon_longitude)).getD 0)

/-- The full outer-level (Maha) period list generated by `calculate_dasha`
(lib.rs:1063-1099): the partial first period at lib.rs:1073-1082 followed by
the full periods of the while loop. -/
def mahaPeriods (birth moon_longitude : ℚ) : List DashaPeriod :=
  let balance := dasha_balance_years_of moon_longitude
  let index := mahaStartIndex moon_longitude
  let first_end := birth + (secondsOfYears balance : ℚ)
  (dasha_sequence.getD index Dasha.Ketu, birth, first_end) ::
    genMaha 20 balance ((index + 1) % 9) first_end

/-- The selection at lib.rs:1101-1105 (and 1132-1135, 1162-1165): the first
period with `start <= now < end`, defaulting to the first period of the
sequence when none matches. -/
def selectPeriod (periods : List DashaPeriod) (now : ℚ) : DashaPeriod :=
  (periods.find? (fun p => decide (p.2.1 ≤ now) && decide (now < p.2.2))).getD
    (periods.headD (Dasha.Ketu, 0, 0))

/-- The subdivision loop body shared by the Antar computation
(lib.rs:1115-1130) and the Pratyantar computation (lib.rs:1145-1160): for
each lord of `dasha_sequence` in order, a period of
`parent_duration * (years / 120)` seconds (truncated to whole seconds by
`as i64`), laid end-to-end from the running cursor. -/
def subdivideGo (parent_duration : ℚ) : List Dasha → ℚ → List DashaPeriod
  | [], _ => []
  | d :: rest, start =>
    let years := lookupYears d
    let dur := parent_duration * (years / 120)
    let periodEnd := start + (ratTrunc dur : ℚ)
    (d, start, periodEnd) :: subdivideGo parent_duration rest periodEnd

/-- One level of proportional subdivision of a parent period of duration
`parent_duration` seconds starting at `start`, in the fixed unrotated order
`dasha_sequence` (lib.rs:1109-1130 and, identically, 1139-1160). -/
def subdivide (start parent_duration : ℚ) : List DashaPeriod :=
  subdivideGo parent_duration dasha_sequence start

/-- `DashaInfo` (lib.rs:455-466), with instants as rationals. -/
structure DashaInfo where
  maha_dasha : Dasha
  maha_dasha_start : ℚ
  maha_dasha_end : ℚ
  antar_dasha : Dasha
  antar_dasha_start : ℚ
  antar_dasha_end : ℚ
  pratyantar_dasha : Dasha
  pratyantar_dasha_start : ℚ
  pratyantar_dasha_end : ℚ
  deriving DecidableEq

/-- The selection phase of `calculate_dasha` (lib.rs:1101-1179).  The third
argument models the value of `Utc::now()` read at lib.rs:1101: it is an
input of the computation even though the Rust signature does not show it.
The parent durations are exact whole-second differences, as produced by
`num_seconds()` at lib.rs:1110 and 1140. -/
def calculate_dasha (birth moon_longitude now : ℚ) : DashaInfo :=
  let maha := selectPeriod (mahaPeriods birth moon_longitude) now
  let maha_duration := maha.2.2 - maha.2.1
  let antar := selectPeriod (subdivide maha.2.1 maha_duration) now
  let antar_duration := antar.2.2 - antar.2.1
  let pratyantar := selectPeriod (subdivide antar.2.1 antar_duration) now
  { maha_dasha := maha.1
    maha_dasha_start := maha.2.1
    maha_dasha_end := maha.2.2
    antar_dasha := antar.1
    antar_dasha_start := antar.2.1
    antar_dasha_end := antar.2.2
    pratyantar_dasha := pratyantar.1
    pratyantar_dasha_start := pratyantar.2.1
    pratyantar_dasha_end := pratyantar.2.2 }

/-- Sum of the second-durations of a period list. -/
def sumDur (periods : List DashaPeriod) : ℚ :=
  (periods.map (fun p => p.2.2 - p.2.1)).sum

/-- The twelve houses (enum `House`, lib.rs:69-83, discriminants 1..12). -/
inductive House
  | First
  | Second
  | Third
  | Fourth
  | Fifth
  | Sixth
  | Seventh
  | Eighth
  | Ninth
  | Tenth
  | Eleventh
  | Twelfth
  deriving DecidableEq, BEq, Fintype

/-- Discriminant of `House` (the value of `house as i32`). -/
def House.toInt : House → ℤ
  | .First => 1
  | .Second => 2
  | .Third => 3
  | .Fourth => 4
  | .Fifth => 5
  | .Sixth => 6
  | .Seventh => 7
  | .Eighth => 8
  | .Ninth => 9
  | .Tenth => 10
  | .Eleventh => 11
  | .Twelfth => 12

/-- `ChartType` (lib.rs:268-273). -/
inductive ChartType
  | Rasi
  | Navamsa
  | Hora
  deriving DecidableEq, BEq

/-- `SpecialLagna` (lib.rs:275-283). -/
inductive SpecialLagna
  | Bhava
  | Hora
  | Ghati
  | Varnada
  | Sree
  | Pranapada
  deriving DecidableEq, BEq

/-- `PlanetaryState` (lib.rs:248-266). -/
inductive PlanetaryState
  | Exalted
  | DeepExaltation
  | Moolatrikona
  | OwnSign
  | GreatFriend
  | Friend
  | Neutral
  | Enemy
  | GreatEnemy
  | Debilitated
  | DeepDebilitation
  | Combust
  | Retrograde
  | Direct
  | Benefic
  | Malefic
  deriving DecidableEq, BEq

/-- `PlanetPosition` (lib.rs:523-533). -/
structure PlanetPosition where
  planet : CelestialBody
  longitude : ℚ
  latitude : ℚ
  speed : ℚ
  sign : ZodiacSign
  house : House
  nakshatra : NakshatraInfo
  retrograde : Bool
  deriving DecidableEq

/-- `HousePosition` (lib.rs:384-389). -/
structure HousePosition where
  house : House
  sign : ZodiacSign
  degree : ℚ
  deriving DecidableEq

/-- `ChartInfo` (lib.rs:515-521). -/
structure ChartInfo where
  chart_type : ChartType
  ascendant : HousePosition
  houses : List HousePosition
  planets : List PlanetPosition
  deriving DecidableEq

/-- The `exaltation_points` table of `calculate_planetary_states`
(lib.rs:1189-1199). -/
def exaltation_points : List (CelestialBody × ZodiacSign × ℚ) :=
  [(CelestialBody.Sun, ZodiacSign.Aries, 10),
   (CelestialBody.Moon, ZodiacSign.Taurus, 3),
   (CelestialBody.Mars, ZodiacSign.Capricorn, 28),
   (CelestialBody.Mercury, ZodiacSign.Virgo, 15),
   (CelestialBody.Jupiter, ZodiacSign.Cancer, 5),
   (CelestialBody.Venus, ZodiacSign.Pisces, 27),
   (CelestialBody.Saturn, ZodiacSign.Libra, 20),
   (CelestialBody.Rahu, ZodiacSign.Gemini, 20),
   (CelestialBody.Ketu, ZodiacSign.Sagittarius, 20)]

/-- The `debilitation_points` table (lib.rs:1201-1211). -/
def debilitation_points : List (CelestialBody × ZodiacSign × ℚ) :=
  [(CelestialBody.Sun, ZodiacSign.Libra, 10),
   (CelestialBody.Moon, ZodiacSign.Scorpio, 3),
   (CelestialBody.Mars, ZodiacSign.Cancer, 28),
   (CelestialBody.Mercury, ZodiacSign.Pisces, 15),
   (CelestialBody.Jupiter, ZodiacSign.Capricorn, 5),
   (CelestialBody.Venus, ZodiacSign.Virgo, 27),
   (CelestialBody.Saturn, ZodiacSign.Aries, 20),
   (CelestialBody.Rahu, ZodiacSign.Sagittarius, 20),
   (CelestialBody.Ketu, ZodiacSign.Gemini, 20)]

/-- The `own_signs` table (lib.rs:1213-1223). -/
def own_signs : List (CelestialBody × List ZodiacSign) :=
  [(CelestialBody.Sun, [ZodiacSign.Leo]),
   (CelestialBody.Moon, [ZodiacSign.Cancer]),
   (CelestialBody.Mars, [ZodiacSign.Aries, ZodiacSign.Scorpio]),
   (CelestialBody.Mercury, [ZodiacSign.Gemini, ZodiacSign.Virgo]),
   (CelestialBody.Jupiter, [ZodiacSign.Sagittarius, ZodiacSign.Pisces]),
   (CelestialBody.Venus, [ZodiacSign.Taurus, ZodiacSign.Libra]),
   (CelestialBody.Saturn, [ZodiacSign.Capricorn, ZodiacSign.Aquarius]),
   (CelestialBody.Rahu, [ZodiacSign.Gemini, ZodiacSign.Virgo]),
   (CelestialBody.Ketu, [ZodiacSign.Sagittarius, ZodiacSign.Pisces])]

/-- The loop body of `calculate_planetary_states` (lib.rs:1225-1290) for one
placement: exaltation first, then debilitation, then own sign, then the
benefic/malefic default, with the retrograde flag overriding everything. -/
def calculate_planetary_state (pp : PlanetPosition) : PlanetaryState :=
  let longitude := rustRem pp.longitude 30
  let exalted := (exaltation_points.find? (fun t => t.1 == pp.planet && t.2.1 == pp.sign)).map
    (fun t => if |longitude - t.2.2| < 1 then PlanetaryState.DeepExaltation
              else PlanetaryState.Exalted)
  let debilitated := (debilitation_points.find? (fun t => t.1 == pp.planet && t.2.1 == pp.sign)).map
    (fun t => if |longitude - t.2.2| < 1 then PlanetaryState.DeepDebilitation
              else PlanetaryState.Debilitated)
  let own_sign := (own_signs.find? (fun t => t.1 == pp.planet && t.2.contains pp.sign)).map
    (fun _ => PlanetaryState.OwnSign)
  let friendly :=
    match pp.planet with
    | CelestialBody.Jupiter | CelestialBody.Venus | CelestialBody.Mercury
    | CelestialBody.Moon | CelestialBody.Sun => true
    | CelestialBody.Saturn | CelestialBody.Mars
    | CelestialBody.Rahu | CelestialBody.Ketu => false
  let state :=
    match exalted with
    | some ex_state => ex_state
    | none =>
      match debilitated with
      | some deb_state => deb_state
      | none =>
        match own_sign with
        | some own_state => own_state
        | none => if friendly then PlanetaryState.Benefic else PlanetaryState.Malefic
  if pp.retrograde then PlanetaryState.Retrograde else state

/-- A sample direct placement: Rahu at longitude 80 (Gemini 20°), exactly at
its exaltation degree, with Gemini also in Rahu's own-sign set. -/
def samplePlacementDirect : PlanetPosition :=
  { planet := CelestialBody.Rahu, longitude := 80, latitude := 0, speed := 1,
    sign := ZodiacSign.Gemini, house := House.First,
    nakshatra := { nakshatra := Nakshatra.Punarvasu, pada := 1,
                   lord := CelestialBody.Mercury, degree := 80 },
    retrograde := false }

/-- The same placement with negative recorded speed. -/
def samplePlacementRetro : PlanetPosition :=
  { samplePlacementDirect with speed := -1, retrograde := true }

/-- `CelestialCoordinates` (lib.rs:374-382). -/
structure CelestialCoordinates where
  longitude : ℚ
  latitude : ℚ
  distance : ℚ
  speed_longitude : ℚ
  speed_latitude : ℚ
  speed_distance : ℚ
  deriving DecidableEq

/-- `CalculationError` (lib.rs:391-395). -/
structure CalculationError where
  code : ℤ
  message : String
  deriving DecidableEq

/-- `AstronomicalResult` (lib.rs:2497-2500). -/
inductive AstronomicalResult
  | CelestialBody (info : CelestialCoordinates)
  | HousePosition (value : ℚ)
  deriving DecidableEq

/-- Recursion measure for `calculate`: only the Ketu case recurses, into
Rahu. -/
def bodyDepth : CelestialBody → ℕ
  | CelestialBody.Ketu => 1
  | _ => 0

/-- `SwissEph::calculate` (lib.rs:1295-1389) with the external
`swe_calc_ut` call abstracted into an oracle returning the six coordinate
values or a negative-status error.  The Ketu case (lib.rs:1321-1355)
recursively computes Rahu (error propagating through `?`), then derives
`(longitude + 180.0) % 360.0`, negated latitude, negated latitude speed and
carried distance and longitude/distance speeds; Ketu never queries the
oracle itself. -/
def calculate (oracle : CelestialBody → Except CalculationError CelestialCoordinates) :
    CelestialBody → Except CalculationError AstronomicalResult
  | CelestialBody.Ketu =>
    match calculate oracle CelestialBody.Rahu with
    | Except.ok (AstronomicalResult.CelestialBody info) =>
      Except.ok (AstronomicalResult.CelestialBody
        { longitude := rustRem (info.longitude + 180) 360
          latitude := -info.latitude
          distance := info.distance
          speed_longitude := info.speed_longitude
          speed_latitude := -info.speed_latitude
          speed_distance := info.speed_distance })
    | Except.ok (AstronomicalResult.HousePosition _) =>
      Except.error { code := -1, message := "Failed to calculate Ketu" }
    | Except.error e => Except.error e
  | body => (oracle body).map AstronomicalResult.CelestialBody
termination_by body => bodyDepth body
decreasing_by simp [bodyDepth]

/-- A fixed sample oracle for the C5 witness. -/
def sampleOracle : CelestialBody → Except CalculationError CelestialCoordinates :=
  fun _ => Except.ok { longitude := 10, latitude := 5, distance := 1,
                       speed_longitude := 1, speed_latitude := 1, speed_distance := 1 }

/-- `get_varna` (lib.rs:1856-1863). -/
def get_varna : ZodiacSign → ℕ
  | ZodiacSign.Leo | ZodiacSign.Aries | ZodiacSign.Sagittarius => 4
  | ZodiacSign.Cancer | ZodiacSign.Scorpio | ZodiacSign.Pisces => 3
  | ZodiacSign.Gemini | ZodiacSign.Libra | ZodiacSign.Aquarius => 2
  | ZodiacSign.Taurus | ZodiacSign.Virgo | ZodiacSign.Capricorn => 1

/-- `check_varna_compatibility` (lib.rs:1850-1854): `varna1 >= varna2`. -/
def check_varna_compatibility (sign1 sign2 : ZodiacSign) : Bool :=
  decide (get_varna sign2 ≤ get_varna sign1)

/-- The `vasya_groups` table (lib.rs:1866-1873). -/
def vasya_groups : List (List ZodiacSign) :=
  [[ZodiacSign.Leo, ZodiacSign.Aries],
   [ZodiacSign.Cancer, ZodiacSign.Scorpio],
   [ZodiacSign.Gemini, ZodiacSign.Libra, ZodiacSign.Aquarius],
   [ZodiacSign.Taurus, ZodiacSign.Capricorn],
   [ZodiacSign.Virgo, ZodiacSign.Pisces],
   [ZodiacSign.Sagittarius]]

/-- `check_vasya_compatibility` (lib.rs:1865-1878). -/
def check_vasya_compatibility (sign1 sign2 : ZodiacSign) : Bool :=
  vasya_groups.any (fun group => group.contains sign1 && group.contains sign2)

/-- `calculate_tara_kuta` (lib.rs:1880-1902).  The two `.unwrap()` calls on
the Moon lookups are modelled as `Option`: `none` represents the panic on a
chart without a Moon placement. -/
def calculate_tara_kuta (chart1 chart2 : ChartInfo) : Option ℕ :=
  match chart1.planets.find? (fun p => p.planet == CelestialBody.Moon),
        chart2.planets.find? (fun p => p.planet == CelestialBody.Moon) with
  | some moon1, some moon2 =>
    let nakshatra1 := moon1.nakshatra.nakshatra.toIndex
    let nakshatra2 := moon2.nakshatra.nakshatra.toIndex
    let tara := ((nakshatra2 + 27) - nakshatra1) % 27 / 3
    some (match tara with
          | 1 | 3 | 5 | 7 => 3
          | 0 | 2 | 4 | 6 | 8 => 0
          | _ => 0)
  | _, _ => none

/-- `get_yoni` (lib.rs:1928-1945). -/
def get_yoni : Nakshatra → String
  | Nakshatra.Ashwini | Nakshatra.Shatabhisha => "Horse"
  | Nakshatra.Bharani | Nakshatra.Revati => "Elephant"
  | Nakshatra.Krittika | Nakshatra.Punarvasu => "Goat"
  | Nakshatra.Rohini | Nakshatra.UttaraPhalguni => "Snake"
  | Nakshatra.Mrigashira | Nakshatra.Chitra => "Dog"
  | Nakshatra.Ardra | Nakshatra.Shravana => "Cat"
  | Nakshatra.Pushya | Nakshatra.UttaraAshadha => "Ram"
  | Nakshatra.Ashlesha | Nakshatra.Jyeshtha => "Mongoose"
  | Nakshatra.Magha | Nakshatra.PurvaPhalguni => "Rat"
  | Nakshatra.Hasta | Nakshatra.Anuradha => "Buffalo"
  | Nakshatra.Swati | Nakshatra.Dhanishta => "Tiger"
  | Nakshatra.Vishakha | Nakshatra.PurvaAshadha => "Deer"
  | Nakshatra.Moola | Nakshatra.PurvaBhadrapada => "Monkey"
  | Nakshatra.UttaraBhadrapada => "Lion"

/-- The `compatible_pairs` table of `are_yonis_compatible`
(lib.rs:1948-1963). -/
def compatible_pairs : List (String × String) :=
  [("Horse", "Horse"), ("Elephant", "Elephant"), ("Goat", "Goat"),
   ("Snake", "Snake"), ("Dog", "Dog"), ("Cat", "Cat"), ("Ram", "Ram"),
   ("Mongoose", "Mongoose"), ("Rat", "Rat"), ("Buffalo", "Buffalo"),
   ("Tiger", "Deer"), ("Deer", "Tiger"), ("Monkey", "Monkey"),
   ("Lion", "Lion")]

/-- `are_yonis_compatible` (lib.rs:1947-1966). -/
def are_yonis_compatible (yoni1 yoni2 : String) : Bool :=
  compatible_pairs.contains (yoni1, yoni2) || compatible_pairs.contains (yoni2, yoni1)

/-- `calculate_yoni_kuta` (lib.rs:1904-1926), with the Moon `.unwrap()`s
modelled as `Option`. -/
def calculate_yoni_kuta (chart1 chart2 : ChartInfo) : Option ℕ :=
  match chart1.planets.find? (fun p => p.planet == CelestialBody.Moon),
        chart2.planets.find? (fun p => p.planet == CelestialBody.Moon) with
  | some moon1, some moon2 =>
    let yoni1 := get_yoni moon1.nakshatra.nakshatra
    let yoni2 := get_yoni moon2.nakshatra.nakshatra
    some (if yoni1 = yoni2 then 4
          else if are_yonis_compatible yoni1 yoni2 then 2
          else 0)
  | _, _ => none

/-- `get_house_lord` (lib.rs:2416-2432); the source's trailing wildcard arm
is unreachable once all twelve houses are listed. -/
def get_house_lord : House → CelestialBody
  | House.First => CelestialBody.Moon
  | House.Second => CelestialBody.Mars
  | House.Third => CelestialBody.Mercury
  | House.Fourth => CelestialBody.Jupiter
  | House.Fifth => CelestialBody.Venus
  | House.Sixth => CelestialBody.Saturn
  | House.Seventh => CelestialBody.Rahu
  | House.Eighth => CelestialBody.Ketu
  | House.Ninth => CelestialBody.Sun
  | House.Tenth => CelestialBody.Moon
  | House.Eleventh => CelestialBody.Mars
  | House.Twelfth => CelestialBody.Mercury

/-- The `friendships` table (lib.rs:1982-2023). -/
def friendships : List (CelestialBody × List CelestialBody) :=
  [(CelestialBody.Sun, [CelestialBody.Moon, CelestialBody.Mars, CelestialBody.Jupiter]),
   (CelestialBody.Moon, [CelestialBody.Sun, CelestialBody.Mercury]),
   (CelestialBody.Mars, [CelestialBody.Sun, CelestialBody.Moon, CelestialBody.Jupiter]),
   (CelestialBody.Mercury, [CelestialBody.Sun, CelestialBody.Venus]),
   (CelestialBody.Jupiter, [CelestialBody.Sun, CelestialBody.Moon, CelestialBody.Mars]),
   (CelestialBody.Venus, [CelestialBody.Mercury, CelestialBody.Saturn]),
   (CelestialBody.Saturn, [CelestialBody.Mercury, CelestialBody.Venus])]

/-- `are_planets_friends` (lib.rs:1981-2028). -/
def are_planets_friends (planet1 planet2 : CelestialBody) : Bool :=
  friendships.any (fun pr =>
    (pr.1 == planet1 && pr.2.contains planet2) || (pr.1 == planet2 && pr.2.contains planet1))

/-- The `neutral_relations` table (lib.rs:2031-2074). -/
def neutral_relations : List (CelestialBody × List CelestialBody) :=
  [(CelestialBody.Sun, [CelestialBody.Mercury]),
   (CelestialBody.Moon, [CelestialBody.Mars, CelestialBody.Jupiter, CelestialBody.Venus,
                         CelestialBody.Saturn]),
   (CelestialBody.Mars, [CelestialBody.Mercury, CelestialBody.Venus, CelestialBody.Saturn]),
   (CelestialBody.Mercury, [CelestialBody.Mars, CelestialBody.Jupiter, CelestialBody.Saturn]),
   (CelestialBody.Jupiter, [CelestialBody.Mercury, CelestialBody.Venus, CelestialBody.Saturn]),
   (CelestialBody.Venus, [CelestialBody.Mars, CelestialBody.Jupiter]),
   (CelestialBody.Saturn, [CelestialBody.Mars, CelestialBody.Jupiter])]

/-- `are_planets_neutral` (lib.rs:2030-2079). -/
def are_planets_neutral (planet1 planet2 : CelestialBody) : Bool :=
  neutral_relations.any (fun pr =>
    (pr.1 == planet1 && pr.2.contains planet2) || (pr.1 == planet2 && pr.2.contains planet1))

/-- `calculate_graha_maitri` (lib.rs:1968-1979). -/
def calculate_graha_maitri (chart1 chart2 : ChartInfo) : ℕ :=
  let lord1 := get_house_lord chart1.ascendant.house
  let lord2 := get_house_lord chart2.ascendant.house
  if are_planets_friends lord1 lord2 then 5
  else if are_planets_neutral lord1 lord2 then 3
  else 0

/-- `get_gana` (lib.rs:2092-2099). -/
def get_gana : ZodiacSign → String
  | ZodiacSign.Aries | ZodiacSign.Leo | ZodiacSign.Sagittarius => "Deva"
  | ZodiacSign.Cancer | ZodiacSign.Scorpio | ZodiacSign.Pisces => "Rakshasa"
  | ZodiacSign.Gemini | ZodiacSign.Libra | ZodiacSign.Aquarius => "Deva"
  | ZodiacSign.Taurus | ZodiacSign.Virgo | ZodiacSign.Capricorn => "Manushya"

/-- `check_gana_compatibility` (lib.rs:2081-2090). -/
def check_gana_compatibility (sign1 sign2 : ZodiacSign) : Bool :=
  match get_gana sign1, get_gana sign2 with
  | "Deva", "Deva" | "Manushya", "Manushya" | "Rakshasa", "Rakshasa" => true
  | "Deva", "Manushya" | "Manushya", "Deva" => true
  | _, _ => false

/-- `check_bhakut_compatibility` (lib.rs:2101-2104). -/
def check_bhakut_compatibility (sign1 sign2 : ZodiacSign) : Bool :=
  let diff := (sign2.toInt - sign1.toInt + 12) % 12
  decide (diff = 1 ∨ diff = 2 ∨ diff = 3 ∨ diff = 4 ∨ diff = 5 ∨ diff = 7 ∨ diff = 9 ∨ diff = 11)

/-- `get_nadi` (lib.rs:2112-2119).  Libra also appears in the source's
"Antya" arm, but the earlier "Aadi" arm shadows it (first match wins); the
wildcard catches Leo and Scorpio. -/
def get_nadi : ZodiacSign → String
  | ZodiacSign.Aries | ZodiacSign.Cancer | ZodiacSign.Libra | ZodiacSign.Capricorn => "Aadi"
  | ZodiacSign.Taurus | ZodiacSign.Virgo | ZodiacSign.Sagittarius | ZodiacSign.Pisces => "Madhya"
  | ZodiacSign.Gemini | ZodiacSign.Aquarius => "Antya"
  | _ => "Unknown"

/-- `check_nadi_compatibility` (lib.rs:2106-2110). -/
def check_nadi_compatibility (sign1 sign2 : ZodiacSign) : Bool :=
  decide (get_nadi sign1 ≠ get_nadi sign2)

/-- `calculate_kuta_points` (lib.rs:1803-1841): the eight sub-scores summed
in source order; `none` records that one of the Moon-dependent sub-scores
panicked. -/
def calculate_kuta_points (chart1 chart2 : ChartInfo) : Option ℕ :=
  match calculate_tara_kuta chart1 chart2, calculate_yoni_kuta chart1 chart2 with
  | some tara, some yoni =>
    some ((if check_varna_compatibility chart1.ascendant.sign chart2.ascendant.sign then 1 else 0)
      + (if check_vasya_compatibility chart1.ascendant.sign chart2.ascendant.sign then 2 else 0)
      + tara
      + yoni
      + calculate_graha_maitri chart1 chart2
      + (if check_gana_compatibility chart1.ascendant.sign chart2.ascendant.sign then 6 else 0)
      + (if check_bhakut_compatibility chart1.ascendant.sign chart2.ascendant.sign then 7 else 0)
      + (if check_nadi_compatibility chart1.ascendant.sign chart2.ascendant.sign then 8 else 0))
  | _, _ => none

/-- `calculate_compatibility_score` (lib.rs:1843-1848):
`(kuta_points / 36.0) * 100.0`. -/
def calculate_compatibility_score (chart1 chart2 : ChartInfo) : Option ℚ :=
  (calculate_kuta_points chart1 chart2).map
    (fun (kuta_points : ℕ) => ((kuta_points : ℚ) / 36) * 100)

/-- `calculate_special_lagnas` (lib.rs:1772-1800), with the Sun and Moon
`.unwrap()`s modelled as `Option` and the result map as an
insertion-ordered list. -/
def calculate_special_lagnas (chart : ChartInfo) : Option (List (SpecialLagna × ℚ)) :=
  match chart.planets.find? (fun p => p.planet == CelestialBody.Sun),
        chart.planets.find? (fun p => p.planet == CelestialBody.Moon) with
  | some sun, some moon =>
    let ascendant_longitude := chart.ascendant.degree
    let sun_longitude := sun.longitude
    let moon_longitude := moon.longitude
    some [(SpecialLagna.Hora, rustRem (ascendant_longitude + (sun_longitude - moon_longitude)) 360),
          (SpecialLagna.Ghati, rustRem (ascendant_longitude + (moon_longitude - sun_longitude) * 5) 360),
          (SpecialLagna.Varnada, rustRem (ascendant_longitude + (sun_longitude - moon_longitude) * 3) 360),
          (SpecialLagna.Sree, rustRem (ascendant_longitude + moon_longitude) 360),
          (SpecialLagna.Pranapada, rustRem (ascendant_longitude + (sun_longitude - moon_longitude) * 7) 360)]
  | _, _ => none

/-- A minimal chart containing a Moon placement, for the C9 witness. -/
def sampleChartWithMoon : ChartInfo :=
  { chart_type := ChartType.Rasi
    ascendant := { house := House.First, sign := ZodiacSign.Aries, degree := 0 }
    houses := []
    planets := [{ planet := CelestialBody.Moon, longitude := 0, latitude := 0, speed := 1,
                  sign := ZodiacSign.Aries, house := House.First,
                  nakshatra := { nakshatra := Nakshatra.Ashwini, pada := 1,
                                 lord := CelestialBody.Ketu, degree := 0 },
                  retrograde := false }] }

/-- A chart whose placement list lacks the Moon (and the Sun), the failing
input for C6. -/
def chartWithoutMoon : ChartInfo :=
  { chart_type := ChartType.Rasi
    ascendant := { house := House.First, sign := ZodiacSign.Aries, degree := 0 }
    houses := []
    planets := [] }

/-- A detected yoga match (`YogaInfo`, lib.rs:495-500): the embedding keeps
the pattern name, the strength weight and the involved bodies; the nested
`Yoga` closure fields (condition/effects) carry no data relevant to the
emitted match list. -/
structure YogaInfo where
  name : String
  strength : ℚ
  involved_planets : List CelestialBody
  deriving DecidableEq

/-- Raj Yoga rule (lib.rs:1614-1648): Jupiter and Saturn within 10 degrees. -/
def raj_yoga_matches (chart : ChartInfo) : List YogaInfo :=
  match chart.planets.find? (fun p => p.planet == CelestialBody.Jupiter),
        chart.planets.find? (fun p => p.planet == CelestialBody.Saturn) with
  | some ninth_lord, some tenth_lord =>
    if |ninth_lord.longitude - tenth_lord.longitude| < 10 then
      [{ name := "Raj Yoga", strength := 1,
         involved_planets := [CelestialBody.Jupiter, CelestialBody.Saturn] }]
    else []
  | _, _ => []

/-- Gajakesari Yoga rule (lib.rs:1650-1679): Jupiter in a Kendra offset
{1,4,7,10} of `|house - house| % 12` from the Moon. -/
def gajakesari_yoga_matches (chart : ChartInfo) : List YogaInfo :=
  match chart.planets.find? (fun p => p.planet == CelestialBody.Jupiter),
        chart.planets.find? (fun p => p.planet == CelestialBody.Moon) with
  | some jupiter, some moon =>
    let house_diff := |jupiter.house.toInt - moon.house.toInt| % 12
    if house_diff = 4 ∨ house_diff = 7 ∨ house_diff = 10 ∨ house_diff = 1 then
      [{ name := "Gajakesari Yoga", strength := 0.85,
         involved_planets := [CelestialBody.Jupiter, CelestialBody.Moon] }]
    else []
  | _, _ => []

/-- Budhaditya Yoga rule (lib.rs:1681-1708): Sun and Mercury in the same
house. -/
def budhaditya_yoga_matches (chart : ChartInfo) : List YogaInfo :=
  match chart.planets.find? (fun p => p.planet == CelestialBody.Sun),
        chart.planets.find? (fun p => p.planet == CelestialBody.Mercury) with
  | some sun, some mercury =>
    if sun.house = mercury.house then
      [{ name := "Budhaditya Yoga", strength := 0.9,
         involved_planets := [CelestialBody.Sun, CelestialBody.Mercury] }]
    else []
  | _, _ => []

/-- Hamsa Yoga rule (lib.rs:1710-1739): the same Kendra condition as
Gajakesari, emitted as a separate match. -/
def hamsa_yoga_matches (chart : ChartInfo) : List YogaInfo :=
  match chart.planets.find? (fun p => p.planet == CelestialBody.Jupiter),
        chart.planets.find? (fun p => p.planet == CelestialBody.Moon) with
  | some jupiter, some moon =>
    let house_diff := |jupiter.house.toInt - moon.house.toInt| % 12
    if house_diff = 4 ∨ house_diff = 7 ∨ house_diff = 10 ∨ house_diff = 1 then
      [{ name := "Hamsa Yoga", strength := 0.8,
         involved_planets := [CelestialBody.Jupiter, CelestialBody.Moon] }]
    else []
  | _, _ => []

/-- Malavya Yoga rule (lib.rs:1741-1767): Venus in a Kendra house. -/
def malavya_yoga_matches (chart : ChartInfo) : List YogaInfo :=
  match chart.planets.find? (fun p => p.planet == CelestialBody.Venus) with
  | some venus =>
    if venus.house = House.First ∨ venus.house = House.Fourth
        ∨ venus.house = House.Seventh ∨ venus.house = House.Tenth then
      [{ name := "Malavya Yoga", strength := 0.75,
         involved_planets := [CelestialBody.Venus] }]
    else []
  | none => []

/-- `calculate_yogas` (lib.rs:1607-1770): the five rules evaluated
independently, their matches pushed in source order. -/
def calculate_yogas (chart : ChartInfo) : List YogaInfo :=
  raj_yoga_matches chart ++ gajakesari_yoga_matches chart
    ++ budhaditya_yoga_matches chart ++ hamsa_yoga_matches chart
    ++ malavya_yoga_matches chart

/-- A sample Jupiter placement in the fifth house. -/
def jupiterSample : PlanetPosition :=
  { planet := CelestialBody.Jupiter, longitude := 0, latitude := 0, speed := 1,
    sign := ZodiacSign.Aries, house := House.Fifth,
    nakshatra := { nakshatra := Nakshatra.Ashwini, pada := 1,
                   lord := CelestialBody.Ketu, degree := 0 },
    retrograde := false }

/-- A sample Moon placement in the first house. -/
def moonSample : PlanetPosition :=
  { planet := CelestialBody.Moon, longitude := 0, latitude := 0, speed := 1,
    sign := ZodiacSign.Aries, house := House.First,
    nakshatra := { nakshatra := Nakshatra.Ashwini, pada := 1,
                   lord := CelestialBody.Ketu, degree := 0 },
    retrograde := false }

/-- A chart where Jupiter sits four houses from the Moon: both Kendra rules
must fire. -/
def sampleChartKendra : ChartInfo :=
  { chart_type := ChartType.Rasi
    ascendant := { house := House.First, sign := ZodiacSign.Aries, degree := 0 }
    houses := []
    planets := [jupiterSample, moonSample] }

/-- Truncation is dominated by its argument when the argument is
nonnegative. -/
theorem ratTrunc_le_of_nonneg {q : ℚ} (h : 0 ≤ q) : (ratTrunc q : ℚ) ≤ q := by
  unfold ratTrunc
  rw [if_pos h]
  exact Int.floor_le q

/-- Truncation loses strictly less than one. -/
theorem sub_one_lt_ratTrunc (q : ℚ) : q - 1 < (ratTrunc q : ℚ) := by
  unfold ratTrunc
  split
  · exact Int.sub_one_lt_floor q
  · have := Int.le_ceil q
    linarith

/-- Truncation of a nonnegative value stays within one of the value. -/
theorem abs_ratTrunc_sub_lt {q : ℚ} (h : 0 ≤ q) : |(ratTrunc q : ℚ) - q| < 1 := by
  have h1 := ratTrunc_le_of_nonneg h
  have h2 := sub_one_lt_ratTrunc q
  rw [abs_lt]
  constructor <;> linarith

/-- Every allocation in the `dasha_years` table is at least 6 years. -/
theorem lookupYears_ge_six (d : Dasha) : (6 : ℚ) ≤ lookupYears d := by
  cases d <;> decide

/-- For the whole-year table entries the `as i64` cast is exact:
`years * 365.25 * 86400.0` is an integer. -/
theorem secondsOfYears_table (d : Dasha) :
    (secondsOfYears (lookupYears d) : ℚ) = lookupYears d * 31557600 := by
  cases d
  case Ketu => rw [show lookupYears Dasha.Ketu = 7 from rfl]; norm_num [secondsOfYears, ratTrunc]
  case Venus => rw [show lookupYears Dasha.Venus = 20 from rfl]; norm_num [secondsOfYears, ratTrunc]
  case Sun => rw [show lookupYears Dasha.Sun = 6 from rfl]; norm_num [secondsOfYears, ratTrunc]
  case Moon => rw [show lookupYears Dasha.Moon = 10 from rfl]; norm_num [secondsOfYears, ratTrunc]
  case Mars => rw [show lookupYears Dasha.Mars = 7 from rfl]; norm_num [secondsOfYears, ratTrunc]
  case Rahu => rw [show lookupYears Dasha.Rahu = 18 from rfl]; norm_num [secondsOfYears, ratTrunc]
  case Jupiter => rw [show lookupYears Dasha.Jupiter = 16 from rfl]; norm_num [secondsOfYears, ratTrunc]
  case Saturn => rw [show lookupYears Dasha.Saturn = 19 from rfl]; norm_num [secondsOfYears, ratTrunc]
  case Mercury => rw [show lookupYears Dasha.Mercury = 17 from rfl]; norm_num [secondsOfYears, ratTrunc]

/-- Fuel sufficiency for the while loop: as long as `6 * fuel` more years fit
under the 120-year bar, the generated full periods bring the cumulative
second count up to 120 years' worth. -/
theorem genMaha_sum (fuel : ℕ) :
    ∀ (t : ℚ) (i : ℕ) (s : ℚ), (120 : ℚ) ≤ t + 6 * (fuel : ℚ) →
      120 * 31557600 ≤ t * 31557600 + sumDur (genMaha fuel t i s) := by
  induction fuel with
  | zero =>
    intro t i s h
    simp only [Nat.cast_zero, mul_zero, add_zero] at h
    simp only [genMaha, sumDur, List.map_nil, List.sum_nil, add_zero]
    nlinarith
  | succ f ih =>
    intro t i s h
    rw [genMaha]
    by_cases hlt : t < 120
    · rw [if_pos hlt]
      have hys := lookupYears_ge_six (dasha_sequence.getD i Dasha.Ketu)
      have hsec := secondsOfYears_table (dasha_sequence.getD i Dasha.Ketu)
      have hcast : ((f : ℚ) + 1) = ((f + 1 : ℕ) : ℚ) := by push_cast; ring
      have ihh := ih (t + lookupYears (dasha_sequence.getD i Dasha.Ketu))
        ((i + 1) % 9)
        (s + (secondsOfYears (lookupYears (dasha_sequence.getD i Dasha.Ketu)) : ℚ))
        (by push_cast at h ⊢; linarith)
      simp only [sumDur, List.map_cons, List.sum_cons] at ihh ⊢
      have hd : s + (secondsOfYears (lookupYears (dasha_sequence.getD i Dasha.Ketu)) : ℚ) - s
          = lookupYears (dasha_sequence.getD i Dasha.Ketu) * 31557600 := by
        rw [← hsec]; ring
      linarith
    · rw [if_neg hlt]
      simp only [sumDur, List.map_nil, List.sum_nil, add_zero]
      have ht : (120 : ℚ) ≤ t := le_of_not_lt hlt
      nlinarith

/-- The while loop only ever appends whole-second durations. -/
theorem genMaha_int (fuel : ℕ) :
    ∀ (t : ℚ) (i : ℕ) (s : ℚ), ∃ k : ℤ, sumDur (genMaha fuel t i s) = (k : ℚ) := by
  induction fuel with
  | zero =>
    intro t i s
    exact ⟨0, by simp [genMaha, sumDur]⟩
  | succ f ih =>
    intro t i s
    rw [genMaha]
    by_cases hlt : t < 120
    · rw [if_pos hlt]
      obtain ⟨k, hk⟩ := ih (t + lookupYears (dasha_sequence.getD i Dasha.Ketu))
        ((i + 1) % 9)
        (s + (secondsOfYears (lookupYears (dasha_sequence.getD i Dasha.Ketu)) : ℚ))
      refine ⟨secondsOfYears (lookupYears (dasha_sequence.getD i Dasha.Ketu)) + k, ?_⟩
      simp only [sumDur, List.map_cons, List.sum_cons] at hk ⊢
      push_cast
      rw [hk]
      ring
    · rw [if_neg hlt]
      exact ⟨0, by simp [sumDur]⟩

/-- The first period generated by the while loop starts at the cursor. -/
theorem genMaha_head_start (fuel : ℕ) (t : ℚ) (i : ℕ) (s : ℚ) (p : DashaPeriod)
    (h : (genMaha fuel t i s).head? = some p) : p.2.1 = s := by
  cases fuel with
  | zero => simp [genMaha] at h
  | succ f =>
    rw [genMaha] at h
    by_cases hlt : t < 120
    · rw [if_pos hlt] at h
      simp only [List.head?_cons, Option.some.injEq] at h
      rw [← h]
    · rw [if_neg hlt] at h
      simp at h

/-- The periods generated by the while loop are contiguous. -/
theorem genMaha_chain (fuel : ℕ) :
    ∀ (t : ℚ) (i : ℕ) (s : ℚ),
      List.Chain' (fun p q : DashaPeriod => p.2.2 = q.2.1) (genMaha fuel t i s) := by
  induction fuel with
  | zero => intro t i s; simp [genMaha]
  | succ f ih =>
    intro t i s
    rw [genMaha]
    by_cases hlt : t < 120
    · rw [if_pos hlt]
      rw [List.chain'_cons']
      refine ⟨?_, ih _ _ _⟩
      intro q hq
      exact (genMaha_head_start _ _ _ _ _ hq).symm
    · rw [if_neg hlt]
      simp

/-- The lords generated by the while loop follow `dasha_sequence`
cyclically from the entry index. -/
theorem genMaha_lords (fuel : ℕ) :
    ∀ (t : ℚ) (i : ℕ) (s : ℚ), i < 9 → ∀ j, j < (genMaha fuel t i s).length →
      ((genMaha fuel t i s).getD j (Dasha.Ketu, 0, 0)).1
        = dasha_sequence.getD ((i + j) % 9) Dasha.Ketu := by
  induction fuel with
  | zero => intro t i s _ j hj; simp [genMaha] at hj
  | succ f ih =>
    intro t i s hi j hj
    rw [genMaha] at hj ⊢
    by_cases hlt : t < 120
    · rw [if_pos hlt] at hj ⊢
      cases j with
      | zero =>
        simp only [List.getD_cons_zero, Nat.add_zero, Nat.mod_eq_of_lt hi]
      | succ j' =>
        simp only [List.getD_cons_succ]
        simp only [List.length_cons, Nat.succ_lt_succ_iff] at hj
        have hrec := ih _ ((i + 1) % 9) _ (Nat.mod_lt _ (by norm_num)) j' hj
        rw [hrec, Nat.mod_add_mod]
        congr 1
        omega
    · rw [if_neg hlt] at hj
      simp at hj

/-- The `position(..).unwrap_or(0)` index is always in range. -/
theorem dasha_sequence_findIdx_lt (d : Dasha) :
    ((dasha_sequence.findIdx? (fun x => x == d)).getD 0) < 9 := by
  cases d <;> decide

/-- Reading `dasha_sequence` back at the found position recovers the lord. -/
theorem dasha_sequence_getD_findIdx (d : Dasha) :
    dasha_sequence.getD ((dasha_sequence.findIdx? (fun x => x == d)).getD 0) Dasha.Ketu = d := by
  cases d <;> decide

/-- The starting index of the outer sequence is always below 9. -/
theorem mahaStartIndex_lt (m : ℚ) : mahaStartIndex m < 9 :=
  dasha_sequence_findIdx_lt _

/-- The elapsed fraction of the birth constellation is strictly below 1
(`%` leaves a remainder strictly smaller than the span). -/
theorem nakshatra_fraction_lt_one (x : ℚ) : nakshatra_fraction_of x < 1 := by
  unfold nakshatra_fraction_of rustRem
  have hspan : (0 : ℚ) < nakshatra_span := by norm_num [nakshatra_span]
  have hrw : (x - nakshatra_span * ratTrunc (x / nakshatra_span)) / nakshatra_span
      = x / nakshatra_span - ratTrunc (x / nakshatra_span) := by
    field_simp
  rw [hrw]
  have := sub_one_lt_ratTrunc (x / nakshatra_span)
  linarith

/-- The balance of the first (partial) period is never negative. -/
theorem dasha_balance_nonneg (x : ℚ) : 0 ≤ dasha_balance_years_of x := by
  unfold dasha_balance_years_of
  have h1 := lookupYears_ge_six (starting_dasha_of x)
  have h2 := nakshatra_fraction_lt_one x
  nlinarith

/-- C1.  For every birth instant and every Moon longitude, the outer (Maha)
sequence generated by `calculate_dasha` is contiguous (each period's end is
the next period's start), its cumulative duration is at least 120 years of
31557600 seconds each, and its lords, read start-to-end, follow the fixed
cyclic order `dasha_sequence` starting from the lord of the Moon's
constellation. -/
theorem dasha_maha_invariants (birth moon_longitude : ℚ) :
    List.Chain' (fun p q : DashaPeriod => p.2.2 = q.2.1) (mahaPeriods birth moon_longitude)
    ∧ 120 * 31557600 ≤ sumDur (mahaPeriods birth moon_longitude)
    ∧ ((mahaPeriods birth moon_longitude).headD (Dasha.Ketu, 0, 0)).1
        = starting_dasha_of moon_longitude
    ∧ ∀ j, j < (mahaPeriods birth moon_longitude).length →
        ((mahaPeriods birth moon_longitude).getD j (Dasha.Ketu, 0, 0)).1
          = dasha_sequence.getD ((mahaStartIndex moon_longitude + j) % 9) Dasha.Ketu := by
  have hexp : mahaPeriods birth moon_longitude
      = (dasha_sequence.getD (mahaStartIndex moon_longitude) Dasha.Ketu, birth,
          birth + (secondsOfYears (dasha_balance_years_of moon_longitude) : ℚ)) ::
        genMaha 20 (dasha_balance_years_of moon_longitude)
          ((mahaStartIndex moon_longitude + 1) % 9)
          (birth + (secondsOfYears (dasha_balance_years_of moon_longitude) : ℚ)) := rfl
  refine ⟨?_, ?_, ?_, ?_⟩
  · rw [hexp, List.chain'_cons']
    refine ⟨?_, genMaha_chain _ _ _ _⟩
    intro q hq
    exact (genMaha_head_start _ _ _ _ _ hq).symm
  · rw [hexp]
    have hnn : 0 ≤ dasha_balance_years_of moon_longitude := dasha_balance_nonneg _
    have hq0 : 0 ≤ dasha_balance_years_of moon_longitude * 365.25 * 86400 := by nlinarith
    have htr := sub_one_lt_ratTrunc (dasha_balance_years_of moon_longitude * 365.25 * 86400)
    have hsum := genMaha_sum 20 (dasha_balance_years_of moon_longitude)
      ((mahaStartIndex moon_longitude + 1) % 9)
      (birth + (secondsOfYears (dasha_balance_years_of moon_longitude) : ℚ))
      (by push_cast; linarith)
    obtain ⟨k, hk⟩ := genMaha_int 20 (dasha_balance_years_of moon_longitude)
      ((mahaStartIndex moon_longitude + 1) % 9)
      (birth + (secondsOfYears (dasha_balance_years_of moon_longitude) : ℚ))
    have hcons : sumDur (mahaPeriods birth moon_longitude)
        = (secondsOfYears (dasha_balance_years_of moon_longitude) : ℚ)
          + sumDur (genMaha 20 (dasha_balance_years_of moon_longitude)
              ((mahaStartIndex moon_longitude + 1) % 9)
              (birth + (secondsOfYears (dasha_balance_years_of moon_longitude) : ℚ))) := by
      rw [hexp]
      simp only [sumDur, List.map_cons, List.sum_cons]
      ring
    rw [hk] at hcons hsum
    rw [← hexp, hcons]
    have hconv : dasha_balance_years_of moon_longitude * 31557600
        = dasha_balance_years_of moon_longitude * 365.25 * 86400 := by
      ring_nf
    have hsec : (secondsOfYears (dasha_balance_years_of moon_longitude) : ℚ)
        > dasha_balance_years_of moon_longitude * 365.25 * 86400 - 1 := by
      unfold secondsOfYears
      exact lt_of_lt_of_le (by linarith) (le_refl _)
    have h5 : ((120 * 31557600 - 1 : ℤ) : ℚ)
        < ((secondsOfYears (dasha_balance_years_of moon_longitude) + k : ℤ) : ℚ) := by
      push_cast
      linarith
    have h6 : (120 * 31557600 : ℤ) ≤ secondsOfYears (dasha_balance_years_of moon_longitude) + k := by
      have := (by exact_mod_cast h5 :
        (120 * 31557600 - 1 : ℤ) < secondsOfYears (dasha_balance_years_of moon_longitude) + k)
      omega
    calc (120 * 31557600 : ℚ) = ((120 * 31557600 : ℤ) : ℚ) := by norm_num
      _ ≤ ((secondsOfYears (dasha_balance_years_of moon_longitude) + k : ℤ) : ℚ) := by
          exact_mod_cast h6
      _ = (secondsOfYears (dasha_balance_years_of moon_longitude) : ℚ) + k := by
          push_cast
          ring
  · rw [hexp]
    simp only [List.headD_cons]
    unfold mahaStartIndex
    exact dasha_sequence_getD_findIdx (starting_dasha_of moon_longitude)
  · intro j hj
    rw [hexp] at hj ⊢
    cases j with
    | zero =>
      simp only [List.getD_cons_zero, Nat.add_zero,
        Nat.mod_eq_of_lt (mahaStartIndex_lt moon_longitude)]
    | succ j' =>
      simp only [List.getD_cons_succ]
      simp only [List.length_cons, Nat.succ_lt_succ_iff] at hj
      have hrec := genMaha_lords 20 (dasha_balance_years_of moon_longitude)
        ((mahaStartIndex moon_longitude + 1) % 9)
        (birth + (secondsOfYears (dasha_balance_years_of moon_longitude) : ℚ))
        (Nat.mod_lt _ (by norm_num)) j' hj
      rw [hrec, Nat.mod_add_mod]
      congr 1
      omega

/-- Witness for C1 at birth instant 0 and Moon longitude 0 (Ashwini, lord
Ketu): the first generated lord is read back from `dasha_sequence`. -/
theorem dasha_maha_invariants_witness :
    0 < (mahaPeriods 0 0).length ∧
      ((mahaPeriods 0 0).getD 0 (Dasha.Ketu, 0, 0)).1
        = dasha_sequence.getD ((mahaStartIndex 0 + 0) % 9) Dasha.Ketu :=
  ⟨by with_unfolding_all decide,
   (dasha_maha_invariants 0 0).2.2.2 0 (by with_unfolding_all decide)⟩

/-- The subdivision loop emits exactly one period per lord, in order. -/
theorem subdivideGo_map_fst (D : ℚ) :
    ∀ (l : List Dasha) (s : ℚ), (subdivideGo D l s).map Prod.fst = l := by
  intro l
  induction l with
  | nil => intro s; simp [subdivideGo]
  | cons d rest ih => intro s; simp [subdivideGo, ih]

/-- The first subdivision period starts at the cursor. -/
theorem subdivideGo_head_start (D : ℚ) (l : List Dasha) (s : ℚ) (p : DashaPeriod)
    (h : (subdivideGo D l s).head? = some p) : p.2.1 = s := by
  cases l with
  | nil => simp [subdivideGo] at h
  | cons d rest =>
    simp only [subdivideGo, List.head?_cons, Option.some.injEq] at h
    rw [← h]

/-- Subdivision periods are laid end-to-end. -/
theorem subdivideGo_chain (D : ℚ) :
    ∀ (l : List Dasha) (s : ℚ),
      List.Chain' (fun p q : DashaPeriod => p.2.2 = q.2.1) (subdivideGo D l s) := by
  intro l
  induction l with
  | nil => intro s; simp [subdivideGo]
  | cons d rest ih =>
    intro s
    rw [subdivideGo, List.chain'_cons']
    refine ⟨?_, ih _⟩
    intro q hq
    exact (subdivideGo_head_start _ _ _ _ hq).symm

/-- Each subdivision period's duration is the truncation of its proportional
share `parent_duration * (years / 120)`. -/
theorem subdivideGo_mem_dur (D : ℚ) :
    ∀ (l : List Dasha) (s : ℚ), ∀ p ∈ subdivideGo D l s,
      p.2.2 - p.2.1 = (ratTrunc (D * (lookupYears p.1 / 120)) : ℚ) := by
  intro l
  induction l with
  | nil => intro s p h; simp [subdivideGo] at h
  | cons d rest ih =>
    intro s p h
    simp only [subdivideGo, List.mem_cons] at h
    rcases h with h | h
    · rw [h]
      ring
    · exact ih _ p h

/-- Bounds on the truncated subdivision total: it never exceeds the
proportional share of the listed lords, and loses less than one second per
period. -/
theorem subdivideGo_sum (D : ℚ) (hD : 0 ≤ D) :
    ∀ (l : List Dasha) (s : ℚ),
      D * ((l.map lookupYears).sum) / 120 - (l.length : ℚ) ≤ sumDur (subdivideGo D l s)
      ∧ sumDur (subdivideGo D l s) ≤ D * ((l.map lookupYears).sum) / 120 := by
  intro l
  induction l with
  | nil => intro s; simp [subdivideGo, sumDur]
  | cons d rest ih =>
    intro s
    obtain ⟨ih1, ih2⟩ := ih (s + (ratTrunc (D * (lookupYears d / 120)) : ℚ))
    have hy := lookupYears_ge_six d
    have hq : 0 ≤ D * (lookupYears d / 120) :=
      mul_nonneg hD (div_nonneg (by linarith) (by norm_num))
    have t1 := ratTrunc_le_of_nonneg hq
    have t2 := sub_one_lt_ratTrunc (D * (lookupYears d / 120))
    simp only [subdivideGo, sumDur, List.map_cons, List.sum_cons, List.length_cons] at ih1 ih2 ⊢
    have hsplit : D * (lookupYears d + (rest.map lookupYears).sum) / 120
        = D * (lookupYears d / 120) + D * ((rest.map lookupYears).sum) / 120 := by
      ring
    push_cast
    constructor <;> [skip; skip] <;> rw [hsplit] <;> linarith

/-- The year allocations of `dasha_years` sum to exactly 120 over
`dasha_sequence`. -/
theorem dasha_sequence_years_sum : ((dasha_sequence.map lookupYears).sum : ℚ) = 120 := by
  with_unfolding_all decide

/-- C2.  One level of proportional subdivision (used identically for the
Antar and the Pratyantar level): 9 periods in the fixed unrotated order
`dasha_sequence`, contiguous, starting at the parent's start; each duration
is within one second of `parent_duration * years / 120`, and the total is
within 9 seconds below the parent's duration (each of the nine `as i64`
casts truncates less than one second). -/
theorem dasha_subdivision_invariants (start parent_duration : ℚ)
    (hD : 0 ≤ parent_duration) :
    (subdivide start parent_duration).map Prod.fst = dasha_sequence
    ∧ List.Chain' (fun p q : DashaPeriod => p.2.2 = q.2.1) (subdivide start parent_duration)
    ∧ ((subdivide start parent_duration).headD (Dasha.Ketu, 0, 0)).2.1 = start
    ∧ (∀ p ∈ subdivide start parent_duration,
        |(p.2.2 - p.2.1) - parent_duration * (lookupYears p.1 / 120)| < 1)
    ∧ parent_duration - 9 ≤ sumDur (subdivide start parent_duration)
    ∧ sumDur (subdivide start parent_duration) ≤ parent_duration := by
  refine ⟨subdivideGo_map_fst _ _ _, subdivideGo_chain _ _ _, rfl, ?_, ?_, ?_⟩
  · intro p hp
    have hd := subdivideGo_mem_dur parent_duration dasha_sequence start p hp
    have hy := lookupYears_ge_six p.1
    have hq : 0 ≤ parent_duration * (lookupYears p.1 / 120) :=
      mul_nonneg hD (div_nonneg (by linarith) (by norm_num))
    rw [hd]
    exact abs_ratTrunc_sub_lt hq
  · have h := (subdivideGo_sum parent_duration hD dasha_sequence start).1
    rw [dasha_sequence_years_sum] at h
    have hlen : ((dasha_sequence.length : ℚ)) = 9 := by norm_num [dasha_sequence]
    rw [hlen] at h
    have : parent_duration * 120 / 120 = parent_duration := by
      field_simp
    rw [this] at h
    exact h
  · have h := (subdivideGo_sum parent_duration hD dasha_sequence start).2
    rw [dasha_sequence_years_sum] at h
    have : parent_duration * 120 / 120 = parent_duration := by
      field_simp
    rw [this] at h
    exact h

/-- Witness for C2 at start 0 with a 120-second parent duration. -/
theorem dasha_subdivision_witness :
    (0 : ℚ) ≤ 120 ∧ (subdivide 0 120).map Prod.fst = dasha_sequence :=
  ⟨by norm_num, (dasha_subdivision_invariants 0 120 (by norm_num)).1⟩

/-- C3.  The 27-arm lord table of lib.rs:422-452 is not the threefold
repetition of the 9-body cycle: at Ardra (constellation index 5) it returns
Saturn where the cyclic table — and the repository's own
`get_nakshatra_lord` in swisseph.rs:176-190 — returns Rahu. -/
theorem nakshatra_lord_table_diverges :
    get_nakshatra_lord Nakshatra.Ardra = CelestialBody.Saturn
    ∧ swisseph_nakshatra_lord Nakshatra.Ardra = CelestialBody.Rahu
    ∧ ¬ ∀ n : Nakshatra, get_nakshatra_lord n
        = vimshottari_lord_cycle.getD (n.toIndex % 9) CelestialBody.Ketu := by
  decide

/-- C8 counterexample.  Longitude 13.333333 lies strictly below the
constellation span constant 13.333333333333334, so it resolves to
constellation index 0 (Ashwini), pada 4 — not to index 1 with pada 1 as
claimed. -/
theorem angle_boundary_counterexample :
    ¬ ((NakshatraInfo.from_longitude (13333333 / 1000000)).nakshatra = Nakshatra.Bharani
       ∧ (NakshatraInfo.from_longitude (13333333 / 1000000)).pada = 1) := by
  with_unfolding_all decide

/-- C8 amended.  The boundary values the resolvers actually produce:
`sign_of(30)` is Taurus (index 1), longitude 0 resolves to constellation
index 0 with pada 1, longitude 13.333333 resolves to constellation index 0
with pada 4 (it is just below the span boundary), and longitude 13.333334
resolves to constellation index 1 with pada 1. -/
theorem angle_boundary_values :
    ZodiacSign.from_longitude 30 = ZodiacSign.Taurus
    ∧ (NakshatraInfo.from_longitude 0).nakshatra = Nakshatra.Ashwini
    ∧ (NakshatraInfo.from_longitude 0).pada = 1
    ∧ (NakshatraInfo.from_longitude (13333333 / 1000000)).nakshatra = Nakshatra.Ashwini
    ∧ (NakshatraInfo.from_longitude (13333333 / 1000000)).pada = 4
    ∧ (NakshatraInfo.from_longitude (13333334 / 1000000)).nakshatra = Nakshatra.Bharani
    ∧ (NakshatraInfo.from_longitude (13333334 / 1000000)).pada = 1 := by
  with_unfolding_all decide

/-- C7 counterexample.  With identical birth information (instant 0) and
identical Moon longitude 0, evaluating at wall-clock instant 0 selects the
Ketu outer period while evaluating 8 years later (252460800 seconds)
selects the Venus outer period: the selection depends on the `Utc::now()`
read at lib.rs:1101, not only on the given inputs. -/
theorem dasha_now_dependence_counterexample :
    (calculate_dasha 0 0 0).maha_dasha = Dasha.Ketu
    ∧ (calculate_dasha 0 0 252460800).maha_dasha = Dasha.Venus
    ∧ calculate_dasha 0 0 0 ≠ calculate_dasha 0 0 252460800 := by
  with_unfolding_all decide

/-- C7 amended.  The dasha computation is a pure function of birth instant,
Moon longitude and the evaluation instant (the modelled `Utc::now()`): two
evaluations agreeing on all three inputs produce identical three-level
selections. -/
theorem dasha_determinism (b₁ m₁ n₁ b₂ m₂ n₂ : ℚ)
    (hb : b₁ = b₂) (hm : m₁ = m₂) (hn : n₁ = n₂) :
    calculate_dasha b₁ m₁ n₁ = calculate_dasha b₂ m₂ n₂ := by
  rw [hb, hm, hn]

/-- Witness for the amended C7 determinism statement. -/
theorem dasha_determinism_witness :
    (0 : ℚ) = 0 ∧ calculate_dasha 0 0 0 = calculate_dasha 0 0 0 :=
  ⟨rfl, dasha_determinism 0 0 0 0 0 0 rfl rfl rfl⟩

/-- C4.  Dignity precedence: given the chart-assembly rule
`retrograde = speed < 0.0` (lib.rs:1569), a placement whose planet/sign pair
hits its exaltation entry within 1.0 degree of the exaltation degree is
classified DeepExaltation whenever its recorded speed is nonnegative — in
particular even when its sign is also in its own-sign set — while a negative
recorded speed forces Retrograde at the very same degree. -/
theorem dignity_precedence (pp : PlanetPosition)
    (entry : CelestialBody × ZodiacSign × ℚ)
    (hfind : exaltation_points.find? (fun t => t.1 == pp.planet && t.2.1 == pp.sign)
      = some entry)
    (hdeg : |rustRem pp.longitude 30 - entry.2.2| < 1)
    (hlink : pp.retrograde = decide (pp.speed < 0)) :
    (0 ≤ pp.speed → calculate_planetary_state pp = PlanetaryState.DeepExaltation)
    ∧ (pp.speed < 0 → calculate_planetary_state pp = PlanetaryState.Retrograde) := by
  constructor
  · intro hs
    have hr : pp.retrograde = false := by
      rw [hlink, decide_eq_false_iff_not]
      exact not_lt.mpr hs
    simp only [calculate_planetary_state, hfind, Option.map_some', if_pos hdeg, hr,
      Bool.false_eq_true, if_false]
  · intro hs
    have hr : pp.retrograde = true := by
      rw [hlink, decide_eq_true_eq]
      exact hs
    simp only [calculate_planetary_state, hr, if_true]

/-- Witness for C4: the direct placement is DeepExaltation (despite also
qualifying for OwnSign), the retrograde one is Retrograde. -/
theorem dignity_precedence_witness :
    calculate_planetary_state samplePlacementDirect = PlanetaryState.DeepExaltation
    ∧ calculate_planetary_state samplePlacementRetro = PlanetaryState.Retrograde :=
  ⟨(dignity_precedence samplePlacementDirect (CelestialBody.Rahu, ZodiacSign.Gemini, 20)
      rfl (by with_unfolding_all decide) (by with_unfolding_all decide)).1
      (by with_unfolding_all decide),
   (dignity_precedence samplePlacementRetro (CelestialBody.Rahu, ZodiacSign.Gemini, 20)
      rfl (by with_unfolding_all decide) (by with_unfolding_all decide)).2
      (by with_unfolding_all decide)⟩

/-- The truncating `%` agrees with `rem_euclid` on nonnegative input. -/
theorem rustRem_eq_remEuclid_of_nonneg {x y : ℚ} (hx : 0 ≤ x) (hy : 0 < y) :
    rustRem x y = remEuclid x y := by
  unfold rustRem remEuclid ratTrunc
  rw [if_pos (div_nonneg hx (le_of_lt hy))]

/-- C5.  The descending node is derived, never queried: a successful
ascending-node position with nonnegative longitude `X` yields a
descending-node position with longitude `(X + 180) mod 360` and negated
latitude; an ascending-node error is propagated verbatim as the
descending-node error; and the descending-node result depends on the oracle
only through its Rahu entry. -/
theorem ketu_derived_from_rahu
    (oracle : CelestialBody → Except CalculationError CelestialCoordinates) :
    (∀ info : CelestialCoordinates, oracle CelestialBody.Rahu = Except.ok info →
      0 ≤ info.longitude →
      calculate oracle CelestialBody.Ketu = Except.ok (AstronomicalResult.CelestialBody
        { longitude := remEuclid (info.longitude + 180) 360
          latitude := -info.latitude
          distance := info.distance
          speed_longitude := info.speed_longitude
          speed_latitude := -info.speed_latitude
          speed_distance := info.speed_distance }))
    ∧ (∀ e : CalculationError, oracle CelestialBody.Rahu = Except.error e →
        calculate oracle CelestialBody.Ketu = Except.error e)
    ∧ (∀ oracle₂ : CelestialBody → Except CalculationError CelestialCoordinates,
        oracle CelestialBody.Rahu = oracle₂ CelestialBody.Rahu →
        calculate oracle CelestialBody.Ketu = calculate oracle₂ CelestialBody.Ketu) := by
  refine ⟨?_, ?_, ?_⟩
  · intro info h hX
    have hrem : rustRem (info.longitude + 180) 360 = remEuclid (info.longitude + 180) 360 :=
      rustRem_eq_remEuclid_of_nonneg (by linarith) (by norm_num)
    simp only [calculate, h, Except.map, hrem]
  · intro e h
    simp only [calculate, h, Except.map]
  · intro oracle₂ h
    simp only [calculate, h]

/-- Witness for C5 with the sample oracle: Ketu is Rahu plus 180 degrees
with negated latitude. -/
theorem ketu_derived_witness :
    (0 : ℚ) ≤ 10 ∧
    calculate sampleOracle CelestialBody.Ketu = Except.ok (AstronomicalResult.CelestialBody
      { longitude := remEuclid (10 + 180) 360
        latitude := -5
        distance := 1
        speed_longitude := 1
        speed_latitude := -1
        speed_distance := 1 }) :=
  ⟨by norm_num,
   (ketu_derived_from_rahu sampleOracle).1
     { longitude := 10, latitude := 5, distance := 1,
       speed_longitude := 1, speed_latitude := 1, speed_distance := 1 }
     rfl (by norm_num)⟩

/-- The Tara sub-score is capped at 3. -/
theorem tara_kuta_le (chart1 chart2 : ChartInfo) :
    ∀ t, calculate_tara_kuta chart1 chart2 = some t → t ≤ 3 := by
  intro t ht
  unfold calculate_tara_kuta at ht
  cases h1 : chart1.planets.find? (fun p => p.planet == CelestialBody.Moon) with
  | none => rw [h1] at ht; simp at ht
  | some moon1 =>
    cases h2 : chart2.planets.find? (fun p => p.planet == CelestialBody.Moon) with
    | none => rw [h1, h2] at ht; simp at ht
    | some moon2 =>
      rw [h1, h2] at ht
      simp only [Option.some.injEq] at ht
      rw [← ht]
      split <;> norm_num

/-- The Yoni sub-score is capped at 4. -/
theorem yoni_kuta_le (chart1 chart2 : ChartInfo) :
    ∀ y, calculate_yoni_kuta chart1 chart2 = some y → y ≤ 4 := by
  intro y hy
  unfold calculate_yoni_kuta at hy
  cases h1 : chart1.planets.find? (fun p => p.planet == CelestialBody.Moon) with
  | none => rw [h1] at hy; simp at hy
  | some moon1 =>
    cases h2 : chart2.planets.find? (fun p => p.planet == CelestialBody.Moon) with
    | none => rw [h1, h2] at hy; simp at hy
    | some moon2 =>
      rw [h1, h2] at hy
      simp only [Option.some.injEq] at hy
      rw [← hy]
      split_ifs <;> norm_num

/-- The Graha Maitri sub-score is capped at 5. -/
theorem graha_maitri_le (chart1 chart2 : ChartInfo) :
    calculate_graha_maitri chart1 chart2 ≤ 5 := by
  unfold calculate_graha_maitri
  dsimp only
  split_ifs <;> norm_num

/-- The raw kuta total is capped at 36 = 1+2+3+4+5+6+7+8. -/
theorem kuta_points_le (chart1 chart2 : ChartInfo) :
    ∀ p, calculate_kuta_points chart1 chart2 = some p → p ≤ 36 := by
  intro p hp
  unfold calculate_kuta_points at hp
  cases h1 : calculate_tara_kuta chart1 chart2 with
  | none =>
    rw [h1] at hp
    cases h2 : calculate_yoni_kuta chart1 chart2 <;> rw [h2] at hp <;> simp at hp
  | some t =>
    cases h2 : calculate_yoni_kuta chart1 chart2 with
    | none => rw [h1, h2] at hp; simp at hp
    | some y =>
      rw [h1, h2] at hp
      simp only [Option.some.injEq] at hp
      have ht := tara_kuta_le chart1 chart2 t h1
      have hy := yoni_kuta_le chart1 chart2 y h2
      have hg := graha_maitri_le chart1 chart2
      rw [← hp]
      split_ifs <;> omega

/-- C9.  The accumulated raw compatibility score is between 0 and 36 (the
Tara, Yoni and Graha Maitri sub-scores are capped at 3, 4 and 5; the
boolean sub-tests contribute at most 1, 2, 6, 7 and 8), and the normalized
percentage `raw/36*100` lies between 0 and 100. -/
theorem compatibility_score_bounds (chart1 chart2 : ChartInfo) :
    (∀ t, calculate_tara_kuta chart1 chart2 = some t → t ≤ 3)
    ∧ (∀ y, calculate_yoni_kuta chart1 chart2 = some y → y ≤ 4)
    ∧ calculate_graha_maitri chart1 chart2 ≤ 5
    ∧ (∀ p, calculate_kuta_points chart1 chart2 = some p → p ≤ 36)
    ∧ (∀ q, calculate_compatibility_score chart1 chart2 = some q → 0 ≤ q ∧ q ≤ 100) := by
  refine ⟨tara_kuta_le chart1 chart2, yoni_kuta_le chart1 chart2,
    graha_maitri_le chart1 chart2, kuta_points_le chart1 chart2, ?_⟩
  intro q hq
  unfold calculate_compatibility_score at hq
  cases hk : calculate_kuta_points chart1 chart2 with
  | none => rw [hk] at hq; simp [Option.map] at hq
  | some p =>
    rw [hk] at hq
    simp only [Option.map, Option.some.injEq] at hq
    rw [← hq] at *
    have hp := kuta_points_le chart1 chart2 p hk
    have hpq : (p : ℚ) ≤ 36 := by exact_mod_cast hp
    have hp0 : (0 : ℚ) ≤ (p : ℚ) := by positivity
    constructor
    · rw [← hq]
      positivity
    · rw [← hq]
      rw [div_mul_eq_mul_div, div_le_iff₀ (by norm_num : (0 : ℚ) < 36)]
      nlinarith

/-- Witness for C9: the sample chart pair scores 13 raw points, within the
36-point cap. -/
theorem compatibility_score_bounds_witness :
    calculate_kuta_points sampleChartWithMoon sampleChartWithMoon = some 13 ∧ 13 ≤ 36 :=
  ⟨by with_unfolding_all decide,
   (compatibility_score_bounds sampleChartWithMoon sampleChartWithMoon).2.2.2.1 13
     (by with_unfolding_all decide)⟩

/-- C6.  On a chart without a Moon placement the compatibility sub-scorer
and the special-lagna computation do not return a recoverable error value:
the `.unwrap()` calls at lib.rs:1880-1890 and lib.rs:1776-1777 panic, which
the embedding records as `none`.  (`calculate_yogas` merely skips rules
whose planets are absent; no `MissingPlacement` error exists anywhere.) -/
theorem missing_moon_is_fatal :
    calculate_tara_kuta chartWithoutMoon chartWithoutMoon = none
    ∧ calculate_special_lagnas chartWithoutMoon = none :=
  ⟨rfl, rfl⟩

/-- The Raj rule only ever emits its own name. -/
theorem raj_yoga_name (chart : ChartInfo) :
    ∀ s ∈ (raj_yoga_matches chart).map YogaInfo.name, s = "Raj Yoga" := by
  intro s hs
  unfold raj_yoga_matches at hs
  split at hs
  · split_ifs at hs <;> simp_all
  · simp at hs

/-- The Gajakesari rule only ever emits its own name. -/
theorem gajakesari_yoga_name (chart : ChartInfo) :
    ∀ s ∈ (gajakesari_yoga_matches chart).map YogaInfo.name, s = "Gajakesari Yoga" := by
  intro s hs
  unfold gajakesari_yoga_matches at hs
  split at hs
  · dsimp only at hs
    split_ifs at hs <;> simp_all
  · simp at hs

/-- The Hamsa rule only ever emits its own name. -/
theorem hamsa_yoga_name (chart : ChartInfo) :
    ∀ s ∈ (hamsa_yoga_matches chart).map YogaInfo.name, s = "Hamsa Yoga" := by
  intro s hs
  unfold hamsa_yoga_matches at hs
  split at hs
  · dsimp only at hs
    split_ifs at hs <;> simp_all
  · simp at hs

/-- The Malavya rule only ever emits its own name. -/
theorem malavya_yoga_name (chart : ChartInfo) :
    ∀ s ∈ (malavya_yoga_matches chart).map YogaInfo.name, s = "Malavya Yoga" := by
  intro s hs
  unfold malavya_yoga_matches at hs
  split at hs
  · split_ifs at hs <;> simp_all
  · simp at hs

/-- The Budhaditya rule fires exactly on same-house Sun and Mercury. -/
theorem budhaditya_yoga_mem (chart : ChartInfo) :
    "Budhaditya Yoga" ∈ (budhaditya_yoga_matches chart).map YogaInfo.name ↔
      ∃ sun mercury,
        chart.planets.find? (fun p => p.planet == CelestialBody.Sun) = some sun
        ∧ chart.planets.find? (fun p => p.planet == CelestialBody.Mercury) = some mercury
        ∧ sun.house = mercury.house := by
  unfold budhaditya_yoga_matches
  constructor
  · intro h
    split at h
    next sun mercury h1 h2 =>
      split_ifs at h with hh
      · exact ⟨sun, mercury, h1, h2, hh⟩
      · simp at h
    next => simp at h
  · rintro ⟨sun, mercury, h1, h2, hh⟩
    rw [h1, h2]
    dsimp only
    rw [if_pos hh]
    simp

/-- The Gajakesari rule fires whenever its condition holds. -/
theorem gajakesari_yoga_fires (chart : ChartInfo) (jupiter moon : PlanetPosition)
    (h1 : chart.planets.find? (fun p => p.planet == CelestialBody.Jupiter) = some jupiter)
    (h2 : chart.planets.find? (fun p => p.planet == CelestialBody.Moon) = some moon)
    (hcond : |jupiter.house.toInt - moon.house.toInt| % 12 = 4
      ∨ |jupiter.house.toInt - moon.house.toInt| % 12 = 7
      ∨ |jupiter.house.toInt - moon.house.toInt| % 12 = 10
      ∨ |jupiter.house.toInt - moon.house.toInt| % 12 = 1) :
    "Gajakesari Yoga" ∈ (gajakesari_yoga_matches chart).map YogaInfo.name := by
  unfold gajakesari_yoga_matches
  rw [h1, h2]
  dsimp only
  rw [if_pos hcond]
  simp

/-- The Hamsa rule fires whenever its (identical) condition holds. -/
theorem hamsa_yoga_fires (chart : ChartInfo) (jupiter moon : PlanetPosition)
    (h1 : chart.planets.find? (fun p => p.planet == CelestialBody.Jupiter) = some jupiter)
    (h2 : chart.planets.find? (fun p => p.planet == CelestialBody.Moon) = some moon)
    (hcond : |jupiter.house.toInt - moon.house.toInt| % 12 = 4
      ∨ |jupiter.house.toInt - moon.house.toInt| % 12 = 7
      ∨ |jupiter.house.toInt - moon.house.toInt| % 12 = 10
      ∨ |jupiter.house.toInt - moon.house.toInt| % 12 = 1) :
    "Hamsa Yoga" ∈ (hamsa_yoga_matches chart).map YogaInfo.name := by
  unfold hamsa_yoga_matches
  rw [h1, h2]
  dsimp only
  rw [if_pos hcond]
  simp

/-- C10.  Pattern rules are independent and never short-circuit: the
Budhaditya match is in the emitted list exactly when Sun and Mercury share
a house, regardless of the other rules, and whenever the shared
Gajakesari/Hamsa Kendra condition holds both of those matches are
emitted. -/
theorem yoga_rules_independent (chart : ChartInfo) :
    (("Budhaditya Yoga" ∈ (calculate_yogas chart).map YogaInfo.name) ↔
      ∃ sun mercury,
        chart.planets.find? (fun p => p.planet == CelestialBody.Sun) = some sun
        ∧ chart.planets.find? (fun p => p.planet == CelestialBody.Mercury) = some mercury
        ∧ sun.house = mercury.house)
    ∧ (∀ jupiter moon,
        chart.planets.find? (fun p => p.planet == CelestialBody.Jupiter) = some jupiter
        → chart.planets.find? (fun p => p.planet == CelestialBody.Moon) = some moon
        → (|jupiter.house.toInt - moon.house.toInt| % 12 = 4
           ∨ |jupiter.house.toInt - moon.house.toInt| % 12 = 7
           ∨ |jupiter.house.toInt - moon.house.toInt| % 12 = 10
           ∨ |jupiter.house.toInt - moon.house.toInt| % 12 = 1)
        → "Gajakesari Yoga" ∈ (calculate_yogas chart).map YogaInfo.name
          ∧ "Hamsa Yoga" ∈ (calculate_yogas chart).map YogaInfo.name) := by
  constructor
  · simp only [calculate_yogas, List.map_append, List.mem_append]
    constructor
    · rintro ((((h | h) | h) | h) | h)
      · exact absurd (raj_yoga_name chart _ h) (by decide)
      · exact absurd (gajakesari_yoga_name chart _ h) (by decide)
      · exact (budhaditya_yoga_mem chart).1 h
      · exact absurd (hamsa_yoga_name chart _ h) (by decide)
      · exact absurd (malavya_yoga_name chart _ h) (by decide)
    · intro hex
      exact Or.inl (Or.inl (Or.inr ((budhaditya_yoga_mem chart).2 hex)))
  · intro jupiter moon h1 h2 hcond
    simp only [calculate_yogas, List.map_append, List.mem_append]
    constructor
    · exact Or.inl (Or.inl (Or.inl (Or.inr (gajakesari_yoga_fires chart jupiter moon h1 h2 hcond))))
    · exact Or.inl (Or.inr (hamsa_yoga_fires chart jupiter moon h1 h2 hcond))

/-- Witness for C10: on the Kendra sample chart both Gajakesari and Hamsa
matches are emitted. -/
theorem yoga_rules_independent_witness :
    "Gajakesari Yoga" ∈ (calculate_yogas sampleChartKendra).map YogaInfo.name
    ∧ "Hamsa Yoga" ∈ (calculate_yogas sampleChartKendra).map YogaInfo.name :=
  (yoga_rules_independent sampleChartKendra).2 jupiterSample moonSample rfl rfl
    (by decide)

